import Mathlib

/-!
Shallow embedding of the AgriNode-Simulator firmware (AgriNode_Config.h,
AgriNode_Simulator.cpp, AgriNode_LoRaTx.cpp).

Modelling conventions:
* C float / double sensor values are embedded as exact rationals.
* Arduino random(a, b) draws (which return a value in [a, b-1]) are passed in
  as explicit integer oracle parameters; theorems that depend on the draws
  carry the corresponding range hypotheses.
* The diurnal term 8 * sin((hourOfDay - 6) * pi / 12) is transcendental, so it
  enters the update as an explicit rational parameter tempVariation of the
  environment; every claim proved here is insensitive to its value.
* Machine integers are Nat / Int with explicit reductions mod 2^w where the
  width matters (uint8 payload bytes, int16 temperature encoding, uint16
  sequence numbers, uint32 counters and millis timestamps).
-/

namespace AgriNode

/-! ## Configuration constants (AgriNode_Config.h) -/

def NUM_SIMULATED_NODES : ℕ := 5
def NODE_UPDATE_INTERVAL_MS : ℕ := 30000
def TX_INTERVAL_BASE_MS : ℕ := 60000
def TX_JITTER_MS : ℕ := 5000
def LORA_MIN_TX_INTERVAL_MS : ℕ := 14000
def TEAM_ID : ℕ := 666
def MAGIC_BYTE_1 : ℕ := 0xAB
def MAGIC_BYTE_2 : ℕ := 0xCD

def IRRIGATION_OFF : ℕ := 0
def IRRIGATION_ON : ℕ := 1
def IRRIGATION_AUTO : ℕ := 2
def IRRIGATION_ERROR : ℕ := 3

/-- SensorRanges from AgriNode_Config.h, with its default member values. -/
structure SensorRanges where
  soilMoisture_min : ℚ := 15
  soilMoisture_max : ℚ := 85
  soilMoisture_critical : ℚ := 25
  temperature_min : ℚ := 10
  temperature_max : ℚ := 45
  temperature_avg : ℚ := 25
  humidity_min : ℚ := 30
  humidity_max : ℚ := 90
  humidity_avg : ℚ := 65

/-- The process-wide configured ranges (the private member of the simulator). -/
def ranges : SensorRanges := {}

/-- AgriculturalNode from AgriNode_Config.h (revision with dataTimestamp). -/
structure AgriculturalNode where
  nodeId : ℕ
  cropType : ℕ
  soilMoisture : ℚ
  ambientTemp : ℚ
  humidity : ℚ
  irrigationStatus : ℕ
  sequenceNumber : ℕ
  lastUpdateTime : ℕ
  lastTxTime : ℕ
  needsIrrigation : Bool
  txCount : ℕ
  lastRssi : ℤ
  dataTimestamp : ℕ
deriving DecidableEq, Repr, Inhabited

/-! ## Numeric helpers shared by simulator and codec -/

/-- AgriNodeSimulator::_constrain (also the Arduino constrain macro). -/
def constrain (value mn mx : ℚ) : ℚ :=
  if value < mn then mn else if value > mx then mx else value

/-- AgriNodeSimulator::_addNoise with the random(-100, 100) draw explicit. -/
def addNoise (value noisePercent : ℚ) (draw : ℤ) : ℚ :=
  value + ((draw : ℚ) / 100) * (value * noisePercent / 100)

/-- C conversion of a real value to an integer: truncation toward zero. -/
def truncZ (x : ℚ) : ℤ :=
  if 0 ≤ x then ⌊x⌋ else -⌊-x⌋

/-- Reduction of an integer into int16 range, as two's-complement wrapping. -/
def toInt16 (n : ℤ) : ℤ :=
  ((n + 32768) % 65536) - 32768

/-! ## Node initialization (AgriNodeSimulator::_initializeNodes) -/

def baseTemps : List ℚ := [24, 26, 22, 28, 25]
def baseMoistures : List ℚ := [45, 55, 65, 40, 50]

/-- The three random(-100,100) draws consumed when one node is initialized. -/
structure InitEnv where
  moistDraw : ℤ := 0
  tempDraw : ℤ := 0
  humDraw : ℤ := 0
deriving Inhabited, DecidableEq

/-- One iteration of the _initializeNodes loop; boot is millis() at begin(). -/
def initNode (boot i : ℕ) (e : InitEnv) : AgriculturalNode :=
  { nodeId := 1000 + i
    cropType := i
    soilMoisture :=
      constrain (addNoise (baseMoistures.getD i 0) 10 e.moistDraw)
        ranges.soilMoisture_min ranges.soilMoisture_max
    ambientTemp :=
      constrain (addNoise (baseTemps.getD i 0) 5 e.tempDraw)
        ranges.temperature_min ranges.temperature_max
    humidity :=
      constrain (addNoise ranges.humidity_avg 15 e.humDraw)
        ranges.humidity_min ranges.humidity_max
    irrigationStatus := IRRIGATION_OFF
    sequenceNumber := 0
    lastUpdateTime := boot % 2 ^ 32
    lastTxTime := 0
    needsIrrigation := false
    txCount := 0
    lastRssi := 0
    dataTimestamp := 0 }

/-! ## Sensor update (AgriNodeSimulator::_updateNodeSensors) -/

/-- The nondeterministic inputs of one node's sensor-update cycle:
tempVariation stands for 8 * sin((hourOfDay - 6) * pi / 12); the draws stand
for the random(...) calls of _updateNodeSensors and _checkIrrigationNeeds. -/
structure UpdateEnv where
  tempVariation : ℚ := 0
  tempDraw : ℤ := 0
  humDraw : ℤ := 0
  irrigDraw : ℤ := 30
  evapDraw : ℤ := 5
  faultDraw : ℤ := 1
deriving Inhabited, DecidableEq

/-- The ranges the Arduino random(...) calls guarantee for the draws. -/
def validDraws (e : UpdateEnv) : Prop :=
  (-100 ≤ e.tempDraw ∧ e.tempDraw ≤ 99) ∧
  (-100 ≤ e.humDraw ∧ e.humDraw ≤ 99) ∧
  (30 ≤ e.irrigDraw ∧ e.irrigDraw ≤ 49) ∧
  (5 ≤ e.evapDraw ∧ e.evapDraw ≤ 14) ∧
  (0 ≤ e.faultDraw ∧ e.faultDraw ≤ 999)

instance (e : UpdateEnv) : Decidable (validDraws e) := by
  unfold validDraws; infer_instance

/-- AgriNodeSimulator::_updateNodeSensors as a function of the node and the
random draws.  The soil-moisture branch reads the ambient temperature that
was just written, as the C code mutates the node field before the branch. -/
def updateNodeSensors (e : UpdateEnv) (node : AgriculturalNode) :
    AgriculturalNode :=
  let targetTemp := ranges.temperature_avg + e.tempVariation
  let temp1 := node.ambientTemp * (9 / 10) + targetTemp * (1 / 10)
  let tempC := constrain (addNoise temp1 2 e.tempDraw)
    ranges.temperature_min ranges.temperature_max
  let targetHum := ranges.humidity_avg - e.tempVariation * 2
  let hum1 := node.humidity * (85 / 100) + targetHum * (15 / 100)
  let humC := constrain (addNoise hum1 3 e.humDraw)
    ranges.humidity_min ranges.humidity_max
  if node.irrigationStatus = IRRIGATION_ON then
    let m2 := constrain (node.soilMoisture + (e.irrigDraw : ℚ) / 10)
      0 ranges.soilMoisture_max
    let st := if 70 ≤ m2 then IRRIGATION_OFF else node.irrigationStatus
    { node with ambientTemp := tempC, humidity := humC,
                soilMoisture := m2, irrigationStatus := st }
  else
    let ev0 := (e.evapDraw : ℚ) / 10
    let ev := if 30 < tempC then ev0 * (3 / 2) else ev0
    let m2 := constrain (node.soilMoisture - ev)
      ranges.soilMoisture_min ranges.soilMoisture_max
    { node with ambientTemp := tempC, humidity := humC, soilMoisture := m2 }

/-- AgriNodeSimulator::_checkIrrigationNeeds, with the random(0, 1000) fault
draw explicit. -/
def checkIrrigationNeeds (e : UpdateEnv) (node : AgriculturalNode) :
    AgriculturalNode :=
  let node1 :=
    if node.soilMoisture < ranges.soilMoisture_critical then
      if node.irrigationStatus = IRRIGATION_OFF then
        { node with irrigationStatus := IRRIGATION_ON, needsIrrigation := true }
      else node
    else { node with needsIrrigation := false }
  if e.faultDraw = 0 then { node1 with irrigationStatus := IRRIGATION_ERROR }
  else node1

/-- The per-node body of an effective AgriNodeSimulator::update cycle:
_updateNodeSensors followed by _checkIrrigationNeeds. -/
def updateNode (e : UpdateEnv) (node : AgriculturalNode) : AgriculturalNode :=
  checkIrrigationNeeds e (updateNodeSensors e node)

/-! ## Whole-simulator state and update (AgriNodeSimulator::update) -/

structure SimState where
  nodes : List AgriculturalNode
  lastGlobalUpdate : ℕ

/-- Number of elapsed milliseconds as computed by 32-bit unsigned
subtraction of two millis() readings. -/
def elapsed32 (now last : ℕ) : ℕ :=
  (((now : ℤ) - (last : ℤ)) % 2 ^ 32).toNat

/-- The loop body applied to each node on an effective update cycle (it also
stamps lastUpdateTime with the current millis reading). -/
def effectiveNodeUpdate (now : ℕ) (e : UpdateEnv) (node : AgriculturalNode) :
    AgriculturalNode :=
  { updateNode e node with lastUpdateTime := now % 2 ^ 32 }

/-- AgriNodeSimulator::update: the sensor pass runs only when the update
interval has elapsed; envs supplies each node's random draws for the cycle. -/
def simUpdate (now : ℕ) (envs : List UpdateEnv) (s : SimState) : SimState :=
  if NODE_UPDATE_INTERVAL_MS ≤ elapsed32 now s.lastGlobalUpdate then
    { nodes := List.zipWith (effectiveNodeUpdate now) envs s.nodes
      lastGlobalUpdate := now % 2 ^ 32 }
  else s

/-- AgriNodeSimulator::begin / _initializeNodes: five nodes, ids 1000..1004,
crops indexed by position; es supplies the per-node initialization draws. -/
def initNodes (boot : ℕ) (es : List InitEnv) : List AgriculturalNode :=
  (List.range NUM_SIMULATED_NODES).map (fun i => initNode boot i (es.getD i default))

def initialState (boot : ℕ) (es : List InitEnv) : SimState :=
  { nodes := initNodes boot es, lastGlobalUpdate := boot % 2 ^ 32 }

/-- A run of the driver loop: each element of steps is one effective-or-not
call of simulator.update() with its millis reading and random draws. -/
def runSim (steps : List (ℕ × List UpdateEnv)) (s : SimState) : SimState :=
  steps.foldl (fun st p => simUpdate p.1 p.2 st) s

/-- Modelled from the spec: the AgriNodeSimulator revision that writes the
node's collection timestamp during the update cycle is not among the source
files (only the struct field in AgriNode_Config.h and the payload writer in
AgriNode_LoRaTx.cpp appear).  Spec section 4.1 step 6: "Record the wall-clock
collection timestamp (0 if unavailable) on the node"; the clock collaborator
yields Unix seconds, none when it is unsynchronized. -/
def recordDataTimestamp (clockNow : Option ℕ) (node : AgriculturalNode) :
    AgriculturalNode :=
  { node with dataTimestamp := (clockNow.getD 0) % 2 ^ 32 }

/-! ## Binary payload codec (AgriNodeLoRaTx::_createBinaryPayload) -/

/-- C cast of a nonnegative constrained float to uint8: truncation. -/
def u8OfQ (x : ℚ) : ℕ :=
  (truncZ x).toNat

/-- The int16 temperature encoding of _createBinaryPayload:
the cast (int16_t)((ambientTemp + 50.0) * 10.0). -/
def tempEncodedOf (t : ℚ) : ℤ :=
  toInt16 (truncZ ((t + 50) * 10))

/-- High byte of an int16 value: (v >> 8) & 0xFF on the two's complement. -/
def i16hi (v : ℤ) : ℕ :=
  (v % 65536).toNat / 256

/-- Low byte of an int16 value: v & 0xFF on the two's complement. -/
def i16lo (v : ℤ) : ℕ :=
  (v % 65536).toNat % 256

/-- Big-endian bytes of a uint32 value: (ts >> k) & 0xFF for k = 24,16,8,0. -/
def u32Bytes (ts : ℕ) : List ℕ :=
  [ts / 2 ^ 24 % 256, ts / 2 ^ 16 % 256, ts / 2 ^ 8 % 256, ts % 256]

/-- Big-endian decoding of a byte list (the receiver's view). -/
def beOfBytes (l : List ℕ) : ℕ :=
  l.foldl (fun a b => a * 256 + b) 0

/-- AgriNodeLoRaTx::_createBinaryPayload; tsEnabled is the build-time
ENABLE_NODE_TIMESTAMP flag, rssiDraw the random(-80, -50) simulated RSSI. -/
def createBinaryPayload (tsEnabled : Bool) (node : AgriculturalNode)
    (rssiDraw : ℤ) : List ℕ :=
  [MAGIC_BYTE_1, MAGIC_BYTE_2,
   TEAM_ID / 256 % 256, TEAM_ID % 256,
   node.nodeId / 256 % 256, node.nodeId % 256,
   u8OfQ (constrain node.soilMoisture 0 100),
   i16hi (tempEncodedOf node.ambientTemp), i16lo (tempEncodedOf node.ambientTemp),
   u8OfQ (constrain node.humidity 0 100),
   node.irrigationStatus % 256,
   ((rssiDraw + 128) % 256).toNat]
  ++ (if tsEnabled then u32Bytes (node.dataTimestamp % 2 ^ 32) else [])

/-! ## Transmission scheduler (AgriNodeLoRaTx::update) -/

/-- The per-node transmit interval computed at the top of the update loop. -/
def txInterval (i : ℕ) : ℕ :=
  let t := TX_INTERVAL_BASE_MS + i * (TX_JITTER_MS / NUM_SIMULATED_NODES)
  if t < LORA_MIN_TX_INTERVAL_MS then LORA_MIN_TX_INTERVAL_MS else t

/-- The due check: currentTime - node.lastTxTime >= txInterval in 32-bit
unsigned arithmetic. -/
def dueForTx (i now last : ℕ) : Bool :=
  decide (txInterval i ≤ elapsed32 now last)

/-- The per-node oracle inputs of one scheduler pass: the channel-activity
verdict of _isChannelFree, the LoRa.endPacket result, the RSSI the radio
reports after a successful send, and the simulated-RSSI payload draw. -/
structure TxOracle where
  channelFree : Bool := true
  sendOk : Bool := true
  reportedRssi : ℤ := -60
  rssiDraw : ℤ := -70
deriving Inhabited, DecidableEq

/-- AgriNodeLoRaTx::_transmitNode: fails on an empty payload, otherwise
reports the send outcome; on success it stores the reported RSSI (an int16
field) in the node. -/
def transmitNode (tsEnabled : Bool) (o : TxOracle) (node : AgriculturalNode) :
    AgriculturalNode × Bool :=
  let payload := createBinaryPayload tsEnabled node o.rssiDraw
  if payload = [] then (node, false)
  else if o.sendOk then ({ node with lastRssi := toInt16 o.reportedRssi }, true)
  else (node, false)

/-- One iteration of the AgriNodeLoRaTx::update loop for node index i.
Returns the node afterwards and the increments of the _packetsSent and
_packetsFailed counters contributed by this node. -/
def processNode (tsEnabled : Bool) (now i : ℕ) (o : TxOracle)
    (node : AgriculturalNode) : AgriculturalNode × ℕ × ℕ :=
  if dueForTx i now node.lastTxTime then
    if o.channelFree then
      let r := transmitNode tsEnabled o node
      if r.2 then
        ({ r.1 with lastTxTime := now % 2 ^ 32,
                    sequenceNumber := (r.1.sequenceNumber + 1) % 65536,
                    txCount := (r.1.txCount + 1) % 2 ^ 32 }, 1, 0)
      else (r.1, 0, 1)
    else (node, 0, 0)
  else (node, 0, 0)

/-- The AgriNodeLoRaTx::update loop from node index k onwards. -/
def loraUpdateGo (tsEnabled : Bool) (now : ℕ) :
    ℕ → List TxOracle → List AgriculturalNode →
    List AgriculturalNode × ℕ × ℕ
  | _, _, [] => ([], 0, 0)
  | _, [], ns => (ns, 0, 0)
  | k, o :: os, n :: ns =>
    let r := processNode tsEnabled now k o n
    let rest := loraUpdateGo tsEnabled now (k + 1) os ns
    (r.1 :: rest.1, r.2.1 + rest.2.1, r.2.2 + rest.2.2)

/-- AgriNodeLoRaTx::update over the whole node list (index starts at 0). -/
def loraUpdate (tsEnabled : Bool) (now : ℕ) (os : List TxOracle)
    (ns : List AgriculturalNode) : List AgriculturalNode × ℕ × ℕ :=
  loraUpdateGo tsEnabled now 0 os ns

/-! ## Definitions following the spec's words (for the refinement claims) -/

/-- The temperature encoding exactly as the spec words it:
round((temp + 50.0) * 10) as a signed 16-bit integer. -/
def specEncodeTemp (t : ℚ) : ℤ :=
  toInt16 (round ((t + 50) * 10))

/-- The decoder the spec states: value / 10 - 50. -/
def decodeTemp (v : ℤ) : ℚ :=
  (v : ℚ) / 10 - 50

/-- Rounding to one decimal place, the round(t, 1) of the spec. -/
def roundTenth (t : ℚ) : ℚ :=
  (round (t * 10) : ℚ) / 10

/-- PAYLOAD_HEADER_SIZE from AgriNode_Config.h. -/
def PAYLOAD_HEADER_SIZE : ℕ := 4

/-- PAYLOAD_NODE_SIZE from AgriNode_Config.h, as gated by the
ENABLE_NODE_TIMESTAMP flag. -/
def PAYLOAD_NODE_SIZE (tsEnabled : Bool) : ℕ :=
  if tsEnabled then 12 else 8

/-! ## Sample inputs used by the witness theorems -/

/-- A concrete draw environment: every draw at the bottom of its random
range and no fault (faultDraw = 1). -/
def sampleEnv : UpdateEnv := {}

/-- The node produced by initialization of index 0 with all-zero noise
draws: soil 45, temperature 24, humidity 65, irrigation OFF. -/
def sampleNode : AgriculturalNode := initNode 0 0 default

/-- The sample node with soil moisture forced below the critical 25. -/
def nodeLowMoist : AgriculturalNode := { sampleNode with soilMoisture := 20 }

/-- The sample node with irrigation running and soil moisture 68. -/
def nodeIrrigating : AgriculturalNode :=
  { sampleNode with irrigationStatus := IRRIGATION_ON, soilMoisture := 68 }

/-- The sample node with a failed irrigation system. -/
def nodeFaulted : AgriculturalNode :=
  { sampleNode with irrigationStatus := IRRIGATION_ERROR }

/-- The node of the end-to-end encoding scenario as the program represents
it: the struct's sensor fields are C floats, so each decimal literal is
quantized to its nearest binary32 value (round to nearest even).  The field
ambientTemp holds float(25.3) = 25.299999237060546875 = 6632243 / 2 ^ 18,
soilMoisture holds float(42.7) = 42.700000762939453125 = 11193549 / 2 ^ 18,
and humidity holds float(60.1) = 60.09999847412109375 = 7877427 / 2 ^ 17.
From these values onward the payload arithmetic (t + 50.0) * 10.0 is exact
in double, so the rational computation below is bit-faithful. -/
def nodeC2F : AgriculturalNode :=
  { nodeId := 1000, cropType := 0,
    soilMoisture := 11193549 / 262144,
    ambientTemp := 6632243 / 262144,
    humidity := 7877427 / 131072,
    irrigationStatus := 0,
    sequenceNumber := 0, lastUpdateTime := 0, lastTxTime := 0,
    needsIrrigation := false, txCount := 0, lastRssi := 0, dataTimestamp := 0 }

/-! ## General lemmas about the numeric helpers -/

theorem constrain_mem (x mn mx : ℚ) (h : mn ≤ mx) :
    mn ≤ constrain x mn mx ∧ constrain x mn mx ≤ mx := by
  unfold constrain
  split_ifs with h1 h2 <;> constructor <;> linarith

theorem constrain_low_of_le (x lo mx : ℚ) (h0 : 0 ≤ lo) (hx : lo ≤ x)
    (hmx : lo ≤ mx) :
    lo ≤ constrain x 0 mx ∧ constrain x 0 mx ≤ mx := by
  unfold constrain
  split_ifs with h1 h2 <;> constructor <;> linarith

theorem constrain_lt_of_lt (x mn mx c : ℚ) (hx : x < c) (hmn : mn < c) :
    constrain x mn mx < c := by
  unfold constrain
  split_ifs with h1 h2 <;> linarith

theorem toInt16_of_bounds (n : ℤ) (h1 : -32768 ≤ n) (h2 : n ≤ 32767) :
    toInt16 n = n := by
  unfold toInt16
  rw [Int.emod_eq_of_lt (by omega) (by omega)]
  omega

theorem beOfBytes_u32Bytes (ts : ℕ) (h : ts < 2 ^ 32) :
    beOfBytes (u32Bytes ts) = ts := by
  simp only [beOfBytes, u32Bytes, List.foldl]
  omega

/-! ## Claim C1: temperature encoding and round-trip -/

/-- C1 counterexample: at ambient temperature 25.37 degrees, which lies in
the claimed interval, the payload encoder produces 753 (truncation toward
zero of 753.7), whereas the claimed formula round((t + 50) * 10) gives 754;
hence decode(encode(t)) is 25.3, not round(t, 1) = 25.4.  The claim is
false as stated over the whole interval. -/
theorem C1_counterexample :
    ((2537 / 100 : ℚ) ≥ -50 ∧ (2537 / 100 : ℚ) ≤ 1638 / 10) ∧
    tempEncodedOf (2537 / 100) = 753 ∧
    specEncodeTemp (2537 / 100) = 754 ∧
    tempEncodedOf (2537 / 100) ≠ specEncodeTemp (2537 / 100) ∧
    decodeTemp (tempEncodedOf (2537 / 100)) ≠ roundTenth (2537 / 100) := by
  refine ⟨⟨by norm_num, by norm_num⟩, ?_, ?_, ?_, ?_⟩
  · norm_num [tempEncodedOf, truncZ, toInt16]
  · norm_num [specEncodeTemp, toInt16, round_eq]
  · norm_num [tempEncodedOf, specEncodeTemp, truncZ, toInt16, round_eq]
  · norm_num [decodeTemp, tempEncodedOf, truncZ, toInt16, roundTenth, round_eq]

/-- C1 (amended): for every temperature t in [-50.0, 163.8] the encoder of
_createBinaryPayload stores floor((t + 50) * 10) (truncation toward zero,
not rounding) as the signed 16-bit value, decoding gives t truncated to
0.1-degree resolution, and the round trip is exact precisely on inputs that
already carry at most one decimal (t * 10 an integer). -/
theorem C1_amended_truncating_roundtrip (t : ℚ) (h1 : -50 ≤ t)
    (h2 : t ≤ 1638 / 10) :
    tempEncodedOf t = ⌊t * 10⌋ + 500 ∧
    decodeTemp (tempEncodedOf t) = (⌊t * 10⌋ : ℚ) / 10 ∧
    ((t * 10).den = 1 → decodeTemp (tempEncodedOf t) = t) := by
  have hnn : (0 : ℚ) ≤ (t + 50) * 10 := by linarith
  have hsplit : (t + 50) * 10 = t * 10 + (500 : ℤ) := by push_cast; ring
  have hfl : truncZ ((t + 50) * 10) = ⌊t * 10⌋ + 500 := by
    rw [truncZ, if_pos hnn, hsplit, Int.floor_add_int]
  have hlo : -500 ≤ ⌊t * 10⌋ := by
    have : ((-500 : ℤ) : ℚ) ≤ t * 10 := by push_cast; linarith
    exact Int.le_floor.mpr this
  have hhi : ⌊t * 10⌋ ≤ 1638 := by
    have : ⌊t * 10⌋ ≤ ⌊(1638 : ℚ)⌋ := Int.floor_le_floor (by linarith)
    simpa using this
  have henc : tempEncodedOf t = ⌊t * 10⌋ + 500 := by
    rw [tempEncodedOf, hfl]
    exact toInt16_of_bounds _ (by omega) (by omega)
  refine ⟨henc, ?_, ?_⟩
  · rw [henc, decodeTemp]
    push_cast
    ring
  · intro hden
    have hnum : ((t * 10).num : ℚ) = t * 10 := by
      rw [← Rat.den_eq_one_iff]; exact hden
    have hfl2 : ⌊t * 10⌋ = (t * 10).num := by
      rw [Rat.floor_def, hden]; simp
    rw [henc, decodeTemp, hfl2]
    push_cast
    rw [hnum]
    ring

/-- C1 witness: the amended round trip at the representable input 25.3. -/
theorem C1_witness :
    decodeTemp (tempEncodedOf (253 / 10)) = (253 / 10 : ℚ) :=
  (C1_amended_truncating_roundtrip (253 / 10) (by norm_num)
    (by norm_num)).2.2 (by norm_num)

/-! ## Claim C2: end-to-end encoding of the scenario node -/

/-- C2 counterexample: the scenario claims temperature bytes 02 F1 (753),
but the program's float field holds float(25.3) = 25.299999237060546875;
from that value (t + 50.0) * 10.0 is exactly 752.99999237060546875 in
double and the truncating int16 cast yields 752, so the payload's
temperature bytes are 02 F0 and the claimed byte vector is not produced. -/
theorem C2_counterexample :
    tempEncodedOf (6632243 / 262144) = 752 ∧
    (createBinaryPayload false nodeC2F (-70)).get? 8 = some 0xF0 ∧
    createBinaryPayload false nodeC2F (-70) ≠
      [0xAB, 0xCD, 0x02, 0x9A, 0x03, 0xE8, 42, 0x02, 0xF1, 60, 0x00,
        (((-70 : ℤ) + 128) % 256).toNat] := by
  have henc : tempEncodedOf (6632243 / 262144) = 752 := by
    norm_num [tempEncodedOf, truncZ, toInt16]
  have hlo : (createBinaryPayload false nodeC2F (-70)).get? 8 =
      some 0xF0 := by
    show some (i16lo (tempEncodedOf nodeC2F.ambientTemp)) = some 0xF0
    rw [show nodeC2F.ambientTemp = 6632243 / 262144 from rfl, henc]
    rfl
  refine ⟨henc, hlo, fun hcontra => ?_⟩
  have : (createBinaryPayload false nodeC2F (-70)).get? 8 = some 0xF1 := by
    rw [hcontra]; rfl
  rw [hlo] at this
  exact absurd (Option.some.inj this) (by norm_num)

/-- C2 (amended): encoding the scenario node as the program represents it
(sensor literals quantized to their binary32 float values) yields exactly
the header AB CD 02 9A followed by 03 E8, 42, then temperature bytes 02 F0
(752, the truncation of (float(25.3) + 50) * 10 = 752.99999237...), 60, 00
and the RSSI byte; every byte except the random RSSI byte is a fixed
constant, and the total length is header (4) plus node (8) = 12 bytes. -/
theorem C2_payload_bytes_quantized (r : ℤ) :
    createBinaryPayload false nodeC2F r =
      [0xAB, 0xCD, 0x02, 0x9A, 0x03, 0xE8, 42, 0x02, 0xF0, 60, 0x00,
        ((r + 128) % 256).toNat] ∧
    (createBinaryPayload false nodeC2F r).length =
      PAYLOAD_HEADER_SIZE + PAYLOAD_NODE_SIZE false := by
  have hb : createBinaryPayload false nodeC2F r =
      [0xAB, 0xCD, 0x02, 0x9A, 0x03, 0xE8, 42, 0x02, 0xF0, 60, 0x00,
        ((r + 128) % 256).toNat] := by
    simp only [createBinaryPayload, nodeC2F, u8OfQ, truncZ, toInt16,
      tempEncodedOf, i16hi, i16lo, constrain, MAGIC_BYTE_1, MAGIC_BYTE_2,
      TEAM_ID]
    norm_num
    decide
  exact ⟨hb, by rw [hb]; rfl⟩

/-! ## Claim C7: the per-node transmit interval -/

/-- C7: for every node index below 5 the effective transmit interval is
max(60000 + i * (5000 / 5), 14000) milliseconds, concretely
60000 + i * 1000, computed by a pure function of the index alone. -/
theorem C7_tx_interval (i : ℕ) (h : i < NUM_SIMULATED_NODES) :
    txInterval i =
      max (TX_INTERVAL_BASE_MS + i * (TX_JITTER_MS / NUM_SIMULATED_NODES))
        LORA_MIN_TX_INTERVAL_MS ∧
    txInterval i = 60000 + i * 1000 := by
  have ht : txInterval i = 60000 + i * 1000 := by
    show (if 60000 + i * (5000 / 5) < 14000 then 14000
          else 60000 + i * (5000 / 5)) = 60000 + i * 1000
    rw [if_neg (by omega)]
  refine ⟨?_, ht⟩
  rw [ht]
  simp only [TX_INTERVAL_BASE_MS, TX_JITTER_MS, NUM_SIMULATED_NODES,
    LORA_MIN_TX_INTERVAL_MS]
  omega

/-- C7 witness: node index 2 transmits every 62 seconds. -/
theorem C7_witness : txInterval 2 = 60000 + 2 * 1000 :=
  (C7_tx_interval 2 (by norm_num [NUM_SIMULATED_NODES])).2

/-! ## Sensor-range invariant (claim C3) -/

/-- The bounded-sensor invariant of the spec: each sensed field lies in its
configured range. -/
def sensorsInRange (n : AgriculturalNode) : Prop :=
  (ranges.soilMoisture_min ≤ n.soilMoisture ∧
    n.soilMoisture ≤ ranges.soilMoisture_max) ∧
  (ranges.temperature_min ≤ n.ambientTemp ∧
    n.ambientTemp ≤ ranges.temperature_max) ∧
  (ranges.humidity_min ≤ n.humidity ∧ n.humidity ≤ ranges.humidity_max)

instance (n : AgriculturalNode) : Decidable (sensorsInRange n) := by
  unfold sensorsInRange; infer_instance

theorem exists_of_mem_zipWith {α β γ : Type} (f : α → β → γ) :
    ∀ (l1 : List α) (l2 : List β) (c : γ), c ∈ List.zipWith f l1 l2 →
      ∃ a ∈ l1, ∃ b ∈ l2, c = f a b
  | a :: l1, b :: l2, c, h => by
    rcases List.mem_cons.mp h with h | h
    · exact ⟨a, List.mem_cons_self a l1, b, List.mem_cons_self b l2, h⟩
    · obtain ⟨a', ha, b', hb, rfl⟩ := exists_of_mem_zipWith f l1 l2 c h
      exact ⟨a', List.mem_cons_of_mem _ ha, b', List.mem_cons_of_mem _ hb, rfl⟩
  | [], _, c, h => by simp at h
  | _ :: _, [], c, h => by simp at h

theorem checkIrrigationNeeds_sensors (e : UpdateEnv) (n : AgriculturalNode) :
    (checkIrrigationNeeds e n).soilMoisture = n.soilMoisture ∧
    (checkIrrigationNeeds e n).ambientTemp = n.ambientTemp ∧
    (checkIrrigationNeeds e n).humidity = n.humidity := by
  simp only [checkIrrigationNeeds]
  split_ifs <;> simp

theorem updateNodeSensors_temp_hum (e : UpdateEnv) (n : AgriculturalNode) :
    (ranges.temperature_min ≤ (updateNodeSensors e n).ambientTemp ∧
      (updateNodeSensors e n).ambientTemp ≤ ranges.temperature_max) ∧
    (ranges.humidity_min ≤ (updateNodeSensors e n).humidity ∧
      (updateNodeSensors e n).humidity ≤ ranges.humidity_max) := by
  by_cases h : n.irrigationStatus = IRRIGATION_ON <;>
    simp only [updateNodeSensors, h, if_true, if_false, ite_true, ite_false] <;>
    exact ⟨constrain_mem _ _ _ (by norm_num [ranges]),
      constrain_mem _ _ _ (by norm_num [ranges])⟩

theorem updateNodeSensors_soil (e : UpdateEnv) (n : AgriculturalNode)
    (he : 30 ≤ e.irrigDraw)
    (hsoil : ranges.soilMoisture_min ≤ n.soilMoisture) :
    ranges.soilMoisture_min ≤ (updateNodeSensors e n).soilMoisture ∧
    (updateNodeSensors e n).soilMoisture ≤ ranges.soilMoisture_max := by
  by_cases h : n.irrigationStatus = IRRIGATION_ON
  · simp only [updateNodeSensors, h, if_true, ite_true]
    have hd : (3 : ℚ) ≤ (e.irrigDraw : ℚ) / 10 := by
      have h30 : (30 : ℚ) ≤ (e.irrigDraw : ℚ) := by exact_mod_cast he
      linarith
    exact constrain_low_of_le _ _ _ (by norm_num [ranges])
      (by have := hsoil; simp only [ranges] at *; linarith)
      (by norm_num [ranges])
  · simp only [updateNodeSensors, h, if_false, ite_false]
    exact constrain_mem _ _ _ (by norm_num [ranges])

theorem updateNode_keeps_range (e : UpdateEnv) (n : AgriculturalNode)
    (he : 30 ≤ e.irrigDraw) (hn : sensorsInRange n) :
    sensorsInRange (updateNode e n) := by
  obtain ⟨hs, hr⟩ := checkIrrigationNeeds_sensors e (updateNodeSensors e n)
  obtain ⟨ht, hh⟩ := hr
  obtain ⟨hth, hhu⟩ := updateNodeSensors_temp_hum e n
  have hso := updateNodeSensors_soil e n he hn.1.1
  exact ⟨by rw [updateNode, hs]; exact hso,
    by rw [updateNode, ht]; exact hth,
    by rw [updateNode, hh]; exact hhu⟩

theorem initNode_in_range (boot i : ℕ) (e : InitEnv) :
    sensorsInRange (initNode boot i e) :=
  ⟨constrain_mem _ _ _ (by norm_num [ranges]),
   constrain_mem _ _ _ (by norm_num [ranges]),
   constrain_mem _ _ _ (by norm_num [ranges])⟩

theorem simUpdate_keeps_range (now : ℕ) (envs : List UpdateEnv) (s : SimState)
    (he : ∀ e ∈ envs, 30 ≤ e.irrigDraw)
    (hs : ∀ n ∈ s.nodes, sensorsInRange n) :
    ∀ n ∈ (simUpdate now envs s).nodes, sensorsInRange n := by
  unfold simUpdate
  split_ifs with hdue
  · intro n hn
    obtain ⟨env, henv, m, hm, rfl⟩ :=
      exists_of_mem_zipWith (effectiveNodeUpdate now) envs s.nodes n hn
    have : sensorsInRange (updateNode env m) :=
      updateNode_keeps_range env m (he env henv) (hs m hm)
    exact this
  · exact hs

theorem runSim_keeps_range (steps : List (ℕ × List UpdateEnv)) (s : SimState)
    (hd : ∀ p ∈ steps, ∀ e ∈ p.2, 30 ≤ e.irrigDraw)
    (hs : ∀ n ∈ s.nodes, sensorsInRange n) :
    ∀ n ∈ (runSim steps s).nodes, sensorsInRange n := by
  induction steps generalizing s with
  | nil => exact hs
  | cons p steps ih =>
    exact ih _ (fun q hq => hd q (List.mem_cons_of_mem _ hq))
      (simUpdate_keeps_range p.1 p.2 s (hd p (List.mem_cons_self p steps)) hs)

/-- C3: in every run of the simulator (initialization followed by any
sequence of update calls whose random draws are within the ranges random()
guarantees), every node's soil moisture, ambient temperature and humidity
lie within the configured bounds, soil in 15..85, temperature in 10..45,
humidity in 30..90. -/
theorem C3_sensor_bounds (boot : ℕ) (es : List InitEnv)
    (steps : List (ℕ × List UpdateEnv))
    (hd : ∀ p ∈ steps, ∀ e ∈ p.2, validDraws e) :
    ∀ n ∈ (runSim steps (initialState boot es)).nodes, sensorsInRange n := by
  refine runSim_keeps_range steps _ (fun p hp e hev => (hd p hp e hev).2.2.1.1) ?_
  intro n hn
  obtain ⟨i, hi, rfl⟩ := List.mem_map.mp hn
  exact initNode_in_range boot i _

/-- C3 witness: the invariant holds of a concretely initialized node. -/
theorem C3_witness : sensorsInRange sampleNode :=
  C3_sensor_bounds 0 [] [] (by simp) sampleNode
    (List.mem_map.mpr ⟨0, by simp [NUM_SIMULATED_NODES], rfl⟩)

/-! ## Irrigation-status reachability (claims C9 and C10) -/

/-- The reachable irrigation statuses: OFF, ON or ERROR; AUTO is declared
in the enum but never assigned. -/
def statusOk (n : AgriculturalNode) : Prop :=
  n.irrigationStatus = IRRIGATION_OFF ∨ n.irrigationStatus = IRRIGATION_ON ∨
    n.irrigationStatus = IRRIGATION_ERROR

instance (n : AgriculturalNode) : Decidable (statusOk n) := by
  unfold statusOk; infer_instance

theorem updateNodeSensors_status (e : UpdateEnv) (n : AgriculturalNode) :
    (updateNodeSensors e n).irrigationStatus = n.irrigationStatus ∨
    (updateNodeSensors e n).irrigationStatus = IRRIGATION_OFF := by
  by_cases h : n.irrigationStatus = IRRIGATION_ON <;>
    simp only [updateNodeSensors, h, if_true, if_false, ite_true, ite_false]
  · split_ifs <;> simp [h]
  · simp

theorem checkIrrigationNeeds_status (e : UpdateEnv) (n : AgriculturalNode) :
    (checkIrrigationNeeds e n).irrigationStatus = n.irrigationStatus ∨
    (checkIrrigationNeeds e n).irrigationStatus = IRRIGATION_ON ∨
    (checkIrrigationNeeds e n).irrigationStatus = IRRIGATION_ERROR := by
  simp only [checkIrrigationNeeds]
  split_ifs <;> simp

theorem updateNode_statusOk (e : UpdateEnv) (n : AgriculturalNode)
    (h : statusOk n) : statusOk (updateNode e n) := by
  have h1 := updateNodeSensors_status e n
  have h2 := checkIrrigationNeeds_status e (updateNodeSensors e n)
  unfold updateNode statusOk
  unfold statusOk at h
  unfold IRRIGATION_OFF IRRIGATION_ON IRRIGATION_ERROR at *
  omega

theorem simUpdate_statusOk (now : ℕ) (envs : List UpdateEnv) (s : SimState)
    (hs : ∀ n ∈ s.nodes, statusOk n) :
    ∀ n ∈ (simUpdate now envs s).nodes, statusOk n := by
  unfold simUpdate
  split_ifs with hdue
  · intro n hn
    obtain ⟨env, _, m, hm, rfl⟩ :=
      exists_of_mem_zipWith (effectiveNodeUpdate now) envs s.nodes n hn
    exact updateNode_statusOk env m (hs m hm)
  · exact hs

theorem runSim_statusOk (steps : List (ℕ × List UpdateEnv)) (s : SimState)
    (hs : ∀ n ∈ s.nodes, statusOk n) :
    ∀ n ∈ (runSim steps s).nodes, statusOk n := by
  induction steps generalizing s with
  | nil => exact hs
  | cons p steps ih => exact ih _ (simUpdate_statusOk p.1 p.2 s hs)

theorem updateNode_error_stays (e : UpdateEnv) (n : AgriculturalNode)
    (h : n.irrigationStatus = IRRIGATION_ERROR) :
    (updateNode e n).irrigationStatus = IRRIGATION_ERROR := by
  have hs : (updateNodeSensors e n).irrigationStatus = IRRIGATION_ERROR := by
    have hne : ¬(n.irrigationStatus = IRRIGATION_ON) := by
      rw [h]; decide
    simp only [updateNodeSensors, hne, if_false, ite_false]
    exact h
  unfold updateNode
  simp only [checkIrrigationNeeds]
  have hne2 : ¬((updateNodeSensors e n).irrigationStatus = IRRIGATION_OFF) := by
    rw [hs]; decide
  split_ifs <;> simp_all

/-- C9: the ERROR irrigation status is absorbing; once a node is in ERROR,
no sequence of subsequent update cycles, whatever their random draws, ever
changes its irrigation status again. -/
theorem C9_error_absorbing (es : List UpdateEnv) (n : AgriculturalNode)
    (h : n.irrigationStatus = IRRIGATION_ERROR) :
    (es.foldl (fun m e => updateNode e m) n).irrigationStatus =
      IRRIGATION_ERROR := by
  induction es generalizing n with
  | nil => exact h
  | cons e es ih => exact ih (updateNode e n) (updateNode_error_stays e n h)

/-- C9 witness: one concrete faulted node stays in ERROR over an update. -/
theorem C9_witness :
    (([sampleEnv].foldl (fun m e => updateNode e m)
        nodeFaulted)).irrigationStatus = IRRIGATION_ERROR :=
  C9_error_absorbing [sampleEnv] nodeFaulted rfl

/-- C10: starting from initialization every reachable irrigation status is
OFF, ON or ERROR; AUTO is never assigned, and the irrigation byte of every
encoded payload (offset 10) carries that status, hence is never 2. -/
theorem C10_no_auto_status (boot : ℕ) (es : List InitEnv)
    (steps : List (ℕ × List UpdateEnv)) (tsEnabled : Bool) (r : ℤ) :
    ∀ n ∈ (runSim steps (initialState boot es)).nodes,
      statusOk n ∧
      (createBinaryPayload tsEnabled n r).get? 10 = some n.irrigationStatus ∧
      n.irrigationStatus ≠ IRRIGATION_AUTO := by
  intro n hn
  have hok : statusOk n := by
    refine runSim_statusOk steps _ ?_ n hn
    intro m hm
    obtain ⟨i, _, rfl⟩ := List.mem_map.mp hm
    left; rfl
  have hlt : n.irrigationStatus < 256 := by
    rcases hok with h | h | h <;> rw [h] <;> decide
  refine ⟨hok, ?_, ?_⟩
  · show some (n.irrigationStatus % 256) = some n.irrigationStatus
    rw [Nat.mod_eq_of_lt hlt]
  · rcases hok with h | h | h <;> rw [h] <;> decide

/-- C10 witness: a concrete freshly initialized node has status OFF and its
payload byte at offset 10 is 0, not AUTO. -/
theorem C10_witness :
    statusOk sampleNode ∧
    (createBinaryPayload false sampleNode (-70)).get? 10 =
      some sampleNode.irrigationStatus ∧
    sampleNode.irrigationStatus ≠ IRRIGATION_AUTO :=
  C10_no_auto_status 0 [] [] false (-70) sampleNode
    (List.mem_map.mpr ⟨0, by simp [NUM_SIMULATED_NODES], rfl⟩)

/-! ## Claim C6: irrigation transitions within one update cycle -/

/-- C6: on an effective update cycle without the rare fault draw, a node
that is OFF with soil moisture below the critical 25 turns ON and raises
the needs-irrigation flag on that cycle; a node that is ON and whose
moisture step reaches at least 70 turns OFF within the same cycle; and
whenever the post-step moisture is at least the critical threshold the
needs-irrigation flag is cleared regardless of irrigation state. -/
theorem C6_irrigation_transitions (e : UpdateEnv) (n : AgriculturalNode) :
    (n.irrigationStatus = IRRIGATION_OFF →
      n.soilMoisture < ranges.soilMoisture_critical →
      0 ≤ e.evapDraw → e.faultDraw ≠ 0 →
      (updateNode e n).irrigationStatus = IRRIGATION_ON ∧
      (updateNode e n).needsIrrigation = true) ∧
    (n.irrigationStatus = IRRIGATION_ON →
      70 ≤ (updateNodeSensors e n).soilMoisture → e.faultDraw ≠ 0 →
      (updateNode e n).irrigationStatus = IRRIGATION_OFF) ∧
    (ranges.soilMoisture_critical ≤ (updateNodeSensors e n).soilMoisture →
      (updateNode e n).needsIrrigation = false) := by
  refine ⟨?_, ?_, ?_⟩
  · intro h0 hcrit hev hfault
    have hne : ¬(n.irrigationStatus = IRRIGATION_ON) := by rw [h0]; decide
    have hst : (updateNodeSensors e n).irrigationStatus = IRRIGATION_OFF := by
      simp only [updateNodeSensors, hne, if_false, ite_false]
      exact h0
    have hev10 : (0 : ℚ) ≤ (e.evapDraw : ℚ) / 10 := by
      have : (0 : ℚ) ≤ (e.evapDraw : ℚ) := by exact_mod_cast hev
      linarith
    have hsoil : (updateNodeSensors e n).soilMoisture <
        ranges.soilMoisture_critical := by
      simp only [updateNodeSensors, hne, if_false, ite_false]
      apply constrain_lt_of_lt
      · split_ifs <;> linarith
      · norm_num [ranges]
    unfold updateNode
    simp only [checkIrrigationNeeds, hsoil, hst, if_true, ite_true, hfault,
      if_false, ite_false]
    simp
  · intro hON h70 hfault
    have hst : (updateNodeSensors e n).irrigationStatus = IRRIGATION_OFF := by
      have hm2 := h70
      simp only [updateNodeSensors, hON, if_true, ite_true] at hm2 ⊢
      rw [if_pos hm2]
    have hge : ranges.soilMoisture_critical ≤
        (updateNodeSensors e n).soilMoisture := by
      refine le_trans ?_ h70
      norm_num [ranges]
    have hlt : ¬((updateNodeSensors e n).soilMoisture <
        ranges.soilMoisture_critical) := not_lt.mpr hge
    unfold updateNode
    simp only [checkIrrigationNeeds, hlt, if_false, ite_false, hfault]
    simpa using hst
  · intro hge
    have hlt : ¬((updateNodeSensors e n).soilMoisture <
        ranges.soilMoisture_critical) := not_lt.mpr hge
    unfold updateNode
    simp only [checkIrrigationNeeds, hlt, if_false, ite_false]
    split_ifs <;> simp

/-- C6 witness: a concrete OFF node at moisture 20 turns ON with the flag
raised on the very update cycle. -/
theorem C6_witness :
    (updateNode sampleEnv nodeLowMoist).irrigationStatus = IRRIGATION_ON ∧
    (updateNode sampleEnv nodeLowMoist).needsIrrigation = true :=
  (C6_irrigation_transitions sampleEnv nodeLowMoist).1 rfl
    (by norm_num [nodeLowMoist, sampleNode, ranges]) (by decide) (by decide)

/-! ## Claim C8: the soil-moisture step amounts -/

/-- C8: on an effective update, an irrigating node's soil moisture rises by
draw/10 for the random(30, 50) draw, an amount in the interval [3, 5],
clamped to [0, max]; a non-irrigating node's moisture falls by draw/10 for
the random(5, 15) draw, an amount in [0.5, 1.5], multiplied by 1.5 when the
freshly updated ambient temperature exceeds 30 degrees, clamped to
[min, max]. -/
theorem C8_soil_step (e : UpdateEnv) (n : AgriculturalNode) :
    (n.irrigationStatus = IRRIGATION_ON → 30 ≤ e.irrigDraw →
      e.irrigDraw ≤ 49 →
      (updateNodeSensors e n).soilMoisture =
        constrain (n.soilMoisture + (e.irrigDraw : ℚ) / 10) 0
          ranges.soilMoisture_max ∧
      3 ≤ (e.irrigDraw : ℚ) / 10 ∧ (e.irrigDraw : ℚ) / 10 ≤ 5) ∧
    (n.irrigationStatus ≠ IRRIGATION_ON → 5 ≤ e.evapDraw → e.evapDraw ≤ 14 →
      (updateNodeSensors e n).soilMoisture =
        constrain (n.soilMoisture -
          (if 30 < (updateNodeSensors e n).ambientTemp then
            (e.evapDraw : ℚ) / 10 * (3 / 2) else (e.evapDraw : ℚ) / 10))
          ranges.soilMoisture_min ranges.soilMoisture_max ∧
      1 / 2 ≤ (e.evapDraw : ℚ) / 10 ∧ (e.evapDraw : ℚ) / 10 ≤ 3 / 2) := by
  constructor
  · intro hON h30 h49
    refine ⟨?_, ?_, ?_⟩
    · simp only [updateNodeSensors, hON, if_true, ite_true]
    · have : (30 : ℚ) ≤ (e.irrigDraw : ℚ) := by exact_mod_cast h30
      linarith
    · have : (e.irrigDraw : ℚ) ≤ 49 := by exact_mod_cast h49
      linarith
  · intro hne h5 h14
    refine ⟨?_, ?_, ?_⟩
    · simp only [updateNodeSensors, hne, if_false, ite_false]
    · have : (5 : ℚ) ≤ (e.evapDraw : ℚ) := by exact_mod_cast h5
      linarith
    · have : (e.evapDraw : ℚ) ≤ 14 := by exact_mod_cast h14
      linarith

/-- C8 witness: the irrigating branch at a concrete node and draw. -/
theorem C8_witness :
    (updateNodeSensors sampleEnv nodeIrrigating).soilMoisture =
      constrain (nodeIrrigating.soilMoisture +
        (sampleEnv.irrigDraw : ℚ) / 10) 0 ranges.soilMoisture_max ∧
    3 ≤ (sampleEnv.irrigDraw : ℚ) / 10 ∧ (sampleEnv.irrigDraw : ℚ) / 10 ≤ 5 :=
  (C8_soil_step sampleEnv nodeIrrigating).1 rfl (by decide) (by decide)

/-! ## Claim C5: transmit bookkeeping -/

theorem createBinaryPayload_ne_nil (tsEnabled : Bool) (n : AgriculturalNode)
    (r : ℤ) : createBinaryPayload tsEnabled n r ≠ [] := by
  cases tsEnabled <;> simp [createBinaryPayload]

/-- A sample oracle: channel free, send succeeds. -/
def sampleOracle : TxOracle := {}

theorem loraUpdateGo_get? (tsEnabled : Bool) (now : ℕ) :
    ∀ (ns : List AgriculturalNode) (os : List TxOracle) (k i : ℕ),
      os.length = ns.length → i < ns.length →
      (loraUpdateGo tsEnabled now k os ns).1.get? i =
        some (processNode tsEnabled now (k + i) (os.getD i default)
          (ns.getD i default)).1
  | [], _, _, i, _, hi => by simp at hi
  | _ :: _, [], _, _, hlen, _ => by simp at hlen
  | n :: ns, o :: os, k, 0, _, _ => by
      simp [loraUpdateGo]
  | n :: ns, o :: os, k, i + 1, hlen, hi => by
      have ih := loraUpdateGo_get? tsEnabled now ns os (k + 1) i
        (by simpa using hlen) (by simpa using hi)
      have hk : k + 1 + i = k + (i + 1) := by omega
      simp only [loraUpdateGo, List.get?_cons_succ, List.getD_cons_succ]
      rw [ih, hk]

/-- C5: in one scheduler pass, a node whose transmit succeeds gets its
sequence number advanced by exactly one (mod its 16-bit width), its
transmit count advanced by one, its last-transmit time set to now, and the
reported RSSI stored, with the sent counter incremented; on a failed send
the node is left untouched and only the failure counter is incremented; a
node that is not due, or skipped because the channel is busy, is left
untouched with neither counter incremented. -/
theorem C5_tx_bookkeeping (tsEnabled : Bool) (now : ℕ) (os : List TxOracle)
    (ns : List AgriculturalNode) (i : ℕ) (hi : i < ns.length)
    (hlen : os.length = ns.length) :
    (dueForTx i now ((ns.getD i default).lastTxTime) = true →
        (os.getD i default).channelFree = true →
        (os.getD i default).sendOk = true →
      (loraUpdate tsEnabled now os ns).1.get? i =
        some { ns.getD i default with
                 lastRssi := toInt16 (os.getD i default).reportedRssi,
                 lastTxTime := now % 2 ^ 32,
                 sequenceNumber :=
                   ((ns.getD i default).sequenceNumber + 1) % 65536,
                 txCount := ((ns.getD i default).txCount + 1) % 2 ^ 32 } ∧
      (processNode tsEnabled now i (os.getD i default)
        (ns.getD i default)).2 = (1, 0)) ∧
    (dueForTx i now ((ns.getD i default).lastTxTime) = true →
        (os.getD i default).channelFree = true →
        (os.getD i default).sendOk = false →
      (loraUpdate tsEnabled now os ns).1.get? i = some (ns.getD i default) ∧
      (processNode tsEnabled now i (os.getD i default)
        (ns.getD i default)).2 = (0, 1)) ∧
    (dueForTx i now ((ns.getD i default).lastTxTime) = false ∨
        (os.getD i default).channelFree = false →
      (loraUpdate tsEnabled now os ns).1.get? i = some (ns.getD i default) ∧
      (processNode tsEnabled now i (os.getD i default)
        (ns.getD i default)).2 = (0, 0)) := by
  have hget : (loraUpdate tsEnabled now os ns).1.get? i =
      some (processNode tsEnabled now i (os.getD i default)
        (ns.getD i default)).1 := by
    have h0 := loraUpdateGo_get? tsEnabled now ns os 0 i hlen hi
    rw [Nat.zero_add] at h0
    exact h0
  refine ⟨?_, ?_, ?_⟩
  · intro hdue hcf hok
    have hp : processNode tsEnabled now i (os.getD i default)
        (ns.getD i default) =
        ({ ns.getD i default with
             lastRssi := toInt16 (os.getD i default).reportedRssi,
             lastTxTime := now % 2 ^ 32,
             sequenceNumber := ((ns.getD i default).sequenceNumber + 1) % 65536,
             txCount := ((ns.getD i default).txCount + 1) % 2 ^ 32 }, 1, 0) := by
      simp only [processNode, transmitNode, hdue, hcf, hok, ite_true,
        if_neg (createBinaryPayload_ne_nil tsEnabled (ns.getD i default)
          (os.getD i default).rssiDraw)]
    exact ⟨by rw [hget, hp], by rw [hp]⟩
  · intro hdue hcf hok
    have hp : processNode tsEnabled now i (os.getD i default)
        (ns.getD i default) = (ns.getD i default, 0, 1) := by
      simp only [processNode, transmitNode, hdue, hcf, hok, ite_true,
        ite_false, Bool.false_eq_true,
        if_neg (createBinaryPayload_ne_nil tsEnabled (ns.getD i default)
          (os.getD i default).rssiDraw)]
    exact ⟨by rw [hget, hp], by rw [hp]⟩
  · intro h
    have hp : processNode tsEnabled now i (os.getD i default)
        (ns.getD i default) = (ns.getD i default, 0, 0) := by
      rcases h with h | h
      · simp only [processNode, h, Bool.false_eq_true, ite_false]
      · by_cases hdue : dueForTx i now ((ns.getD i default).lastTxTime) = true
        · simp only [processNode, hdue, h, Bool.false_eq_true, ite_true,
            ite_false]
        · have hdue' : dueForTx i now ((ns.getD i default).lastTxTime) =
              false := by
            cases hd : dueForTx i now ((ns.getD i default).lastTxTime)
            · rfl
            · exact absurd hd hdue
          simp only [processNode, hdue', Bool.false_eq_true, ite_false]
    exact ⟨by rw [hget, hp], by rw [hp]⟩

/-- C5 witness: one due node, free channel, successful send. -/
theorem C5_witness :
    (loraUpdate false 100000 [sampleOracle] [sampleNode]).1.get? 0 =
      some { sampleNode with
               lastRssi := toInt16 sampleOracle.reportedRssi,
               lastTxTime := 100000 % 2 ^ 32,
               sequenceNumber := (sampleNode.sequenceNumber + 1) % 65536,
               txCount := (sampleNode.txCount + 1) % 2 ^ 32 } ∧
    (processNode false 100000 0 sampleOracle sampleNode).2 = (1, 0) :=
  (C5_tx_bookkeeping false 100000 [sampleOracle] [sampleNode] 0
    (by decide) rfl).1 (by decide) rfl rfl

/-! ## Claim C4: the collection timestamp and its payload field -/

/-- C4: on an effective update cycle the recorded collection timestamp is
the clock's Unix-seconds reading (0 when the clock is unavailable), and
when the timestamp feature is enabled the last four payload bytes are
exactly that value in big-endian order, so the receiver recovers it. -/
theorem C4_collection_timestamp (clock : Option ℕ) (e : UpdateEnv)
    (n : AgriculturalNode) (r : ℤ) :
    (recordDataTimestamp clock (updateNode e n)).dataTimestamp =
      clock.getD 0 % 2 ^ 32 ∧
    (createBinaryPayload true (recordDataTimestamp clock (updateNode e n))
        r).drop 12 =
      u32Bytes ((recordDataTimestamp clock (updateNode e n)).dataTimestamp) ∧
    beOfBytes ((createBinaryPayload true
        (recordDataTimestamp clock (updateNode e n)) r).drop 12) =
      (recordDataTimestamp clock (updateNode e n)).dataTimestamp := by
  have hts : (recordDataTimestamp clock (updateNode e n)).dataTimestamp =
      clock.getD 0 % 2 ^ 32 := rfl
  have hmm : (recordDataTimestamp clock (updateNode e n)).dataTimestamp %
      2 ^ 32 = (recordDataTimestamp clock (updateNode e n)).dataTimestamp := by
    rw [hts]
    exact Nat.mod_mod_of_dvd _ dvd_rfl
  have hdrop : (createBinaryPayload true
      (recordDataTimestamp clock (updateNode e n)) r).drop 12 =
      u32Bytes ((recordDataTimestamp clock (updateNode e n)).dataTimestamp %
        2 ^ 32) := rfl
  refine ⟨hts, ?_, ?_⟩
  · rw [hdrop, hmm]
  · rw [hdrop, hmm,
      beOfBytes_u32Bytes _ (by rw [hts]; exact Nat.mod_lt _ (by norm_num))]

end AgriNode
